import Mathlib

/-!
Shallow embedding of the `util/` upload tool of aws-parallelcluster:
`util/s3_factory.py` (class `S3`) and `util/upload-script.py` (the CLI
driver).  Provider interactions (boto3 S3 client calls) are modelled by an
explicit environment `Env` describing the provider's responses, and every
operation returns, besides its outcome, the list of provider calls it
performed, so that properties about which calls happen (mutating calls,
dry-run behaviour, location constraints, chosen version ids) can be stated
and proved.
-/

namespace S3Factory

/-- Splitting a character list at a separator, every occurrence, keeping
empty pieces — the semantics of Python's `str.split(sep)` with an explicit
separator. -/
def splitChar (sep : Char) : List Char → List (List Char)
  | [] => [[]]
  | c :: cs =>
    if c = sep then [] :: splitChar sep cs
    else
      match splitChar sep cs with
      | w :: ws => (c :: w) :: ws
      | [] => [[c]]

/-- Python's `s.split(sep)` for a one-character separator (used by the code
as `region.split(",")`). -/
def pySplit (s : String) (sep : Char) : List String :=
  (splitChar sep s.toList).map (fun cs => String.mk cs)

/-- Does the first character list start with the second? -/
def startsWithList : List Char → List Char → Bool
  | _, [] => true
  | [], _ :: _ => false
  | c :: cs, d :: ds => c == d && startsWithList cs ds

/-- Key-starts-with test used to model the provider's `Prefix=` filter in
`list_object_versions`. -/
def strStartsWith (s pat : String) : Bool :=
  startsWithList s.toList pat.toList

/-- Response of the provider to a head/put style request: either success or a
`botocore` ClientError carrying an error code string. -/
inductive ClientResp where
  | ok : ClientResp
  | clientError (code : String) : ClientResp
deriving Repr, DecidableEq

/-- One entry of an object-version listing, as returned by
`list_object_versions` (the fields the code reads: Key, VersionId,
LastModified). -/
structure VersionEntry where
  key : String
  versionId : String
  lastModified : String
deriving Repr, DecidableEq

/-- Provider state / oracle: responses the S3 endpoint gives to each request
the tool can make. -/
structure Env where
  /-- response to `head_bucket(Bucket=b)` -/
  headBucket : String → ClientResp
  /-- response to `head_object(Bucket=b, Key=k)` -/
  headObject : String → String → ClientResp
  /-- full version listing of bucket `b` in provider order (the code's
  `list_object_versions` filters it by key prefix and caps it at MaxKeys) -/
  versionList : String → List VersionEntry
  /-- response to `get_object(Bucket=b, Key=k, VersionId=v)`: `some body`
  on HTTP 200, `none` on a ClientError -/
  getObjectData : String → String → String → Option String
  /-- response to `put_object(Bucket=b, Key=k)` -/
  putObjectResp : String → String → ClientResp

/-- A provider call performed by the tool. -/
inductive Call where
  | headBucketCall (bucket : String)
  | createBucketCall (bucket : String) (locationConstraint : Option String)
  | waitBucketExistsCall (bucket : String)
  | putBucketVersioningCall (bucket : String)
  | headObjectCall (bucket key : String)
  | putObjectCall (bucket key : String)
  | listVersionsCall (bucket keyPfx : String) (maxKeys : Nat)
  | getObjectCall (bucket key versionId : String)
deriving Repr, DecidableEq

/-- Is the call one that mutates provider state (`put_object`,
`create_bucket`, `put_bucket_versioning`)? -/
def Call.isMutating : Call → Bool
  | .putObjectCall _ _ => true
  | .createBucketCall _ _ => true
  | .putBucketVersioningCall _ => true
  | _ => false

/-- Is the call a `put_object` call? -/
def Call.isPutObject : Call → Bool
  | .putObjectCall _ _ => true
  | _ => false

/-- Is the call a `create_bucket` call? -/
def Call.isCreateBucket : Call → Bool
  | .createBucketCall _ _ => true
  | _ => false

/-- Is the call a `list_object_versions` call? -/
def Call.isListVersions : Call → Bool
  | .listVersionsCall _ _ _ => true
  | _ => false

/-- Outcome of one operation.  `fatalError` is `error(msg, fail_on_error=True)`,
`nonFatalError` is `error(msg, fail_on_error=False)`, `raised` is an uncaught
ClientError re-raised by the code. -/
inductive Outcome where
  | success : Outcome
  | fatalError (msg : String) : Outcome
  | raised (code : String) : Outcome
deriving Repr, DecidableEq

/-- Was the outcome a fatal error? -/
def Outcome.isFatal : Outcome → Bool
  | .fatalError _ => true
  | _ => false

/-- Python's rendering of a boolean under `%s`. -/
def pyBool : Bool → String
  | true => "True"
  | false => "False"

/-- Modelled from the spec: the helper `error` imported from `pcluster.utils`
is not part of the sources under `src/`.  Per the spec's failure semantics,
fatal errors "halt processing for the current region/script" and there is "no
cross-region aggregation of failures": `error(msg, fail_on_error=True)` is
therefore modelled as ending the current region's operation with a fatal
outcome, after which the driver continues with the next region. -/
def error_fatal (msg : String) : Outcome := Outcome.fatalError msg

/-- The configuration held by an `S3` instance (the constructor arguments the
operations read).  `main_region` is the value computed by `get_main_region`. -/
structure S3Config where
  bucket : Option String
  script : String
  key_path : String
  dryrun : Bool
  override : Bool
  createifnobucket : Bool
  main_region : String
deriving Repr, DecidableEq

/-- Embedding of `S3.get_main_region`: fixed partition → home region lookup;
an unknown partition is a fatal configuration error. -/
def get_main_region (part : String) : Except String String :=
  if part == "commercial" then .ok "us-east-1"
  else if part == "govcloud" then .ok "us-gov-west-1"
  else if part == "china" then .ok "cn-north-1"
  else .error "Unsupported Region"

/-- Region-set resolution in `S3.__init__`: `all` enumerates the provider's
regions, otherwise the comma-separated list is split; then
`set(aws_regions) - set(unsupported_regions)` is formed (in the code this
subtraction happens on both branches). -/
def resolve_regions (region : String) (allAwsRegions : List String)
    (unsupported_regions : List String) : List String :=
  let aws_regions := if region == "all" then allAwsRegions else pySplit region ','
  aws_regions.filter (fun r => !unsupported_regions.contains r)

/-- Bucket-name resolution inside `S3.get_bucket`: the custom bucket when
given, else the derived name `region ++ "-aws-parallelcluster"`. -/
def resolved_bucket (cfg : S3Config) (region : String) : String :=
  match cfg.bucket with
  | some b => b
  | none => region ++ "-aws-parallelcluster"

/-- The object key built by `upload_to_s3` and `rollback`:
`"%s/%s" % (self.key_path, self.script)` — the script argument verbatim. -/
def object_key (cfg : S3Config) : String := cfg.key_path ++ "/" ++ cfg.script

/-- Embedding of `S3.create_bucket`: in the `us-east-1` branch (tested against
`self.main_region`, not against the target region) the create call carries no
location constraint and a bucket-exists waiter runs; otherwise the call
carries `LocationConstraint = region`.  Versioning is then enabled. -/
def create_bucket (main_region bucket region : String) : List Call :=
  if main_region == "us-east-1" then
    [Call.createBucketCall bucket none, Call.waitBucketExistsCall bucket,
     Call.putBucketVersioningCall bucket]
  else
    [Call.createBucketCall bucket (some region),
     Call.putBucketVersioningCall bucket]

/-- Embedding of `S3.get_bucket`: resolve the name, head the bucket, and create it when
the head came back 404 and `createifnobucket` is set.  Returns the name and
the provider calls performed. -/
def get_bucket (cfg : S3Config) (env : Env) (region : String) :
    String × List Call :=
  let bucket := resolved_bucket cfg region
  let nobucket :=
    match env.headBucket bucket with
    | .ok => false
    | .clientError code => code == "404"
  if nobucket && cfg.createifnobucket then
    (bucket, Call.headBucketCall bucket :: create_bucket cfg.main_region bucket region)
  else
    (bucket, [Call.headBucketCall bucket])

/-- Embedding of `S3.put_object`: performs the put; on ClientError a non-fatal message is
printed, then `NoSuchBucket` becomes a fatal error and any other code is
re-raised. -/
def put_object (env : Env) (bucket key : String) : Outcome × List Call :=
  match env.putObjectResp bucket key with
  | .ok => (Outcome.success, [Call.putObjectCall bucket key])
  | .clientError code =>
    if code == "NoSuchBucket" then
      (error_fatal "Bucket is not present.", [Call.putObjectCall bucket key])
    else
      (Outcome.raised code, [Call.putObjectCall bucket key])

/-- Embedding of `S3.upload_to_s3`: build the key, resolve the bucket, head the object
(any ClientError means `exist = False`), then upload exactly when
`(exist and override and not dryrun) or (not exist and not dryrun)`;
otherwise a "Not uploading" error ends the region. -/
def upload_to_s3 (cfg : S3Config) (env : Env) (region : String) :
    Outcome × List Call :=
  let key := object_key cfg
  let bucket := (get_bucket cfg env region).1
  let calls0 := (get_bucket cfg env region).2
  let exist :=
    match env.headObject bucket key with
    | .ok => true
    | .clientError _ => false
  let calls1 := calls0 ++ [Call.headObjectCall bucket key]
  if (exist && cfg.override && !cfg.dryrun) || (!exist && !cfg.dryrun) then
    ((put_object env bucket key).1, calls1 ++ (put_object env bucket key).2)
  else
    (error_fatal ("Not uploading " ++ cfg.script ++ " to bucket " ++ bucket ++
       ", object exists " ++ pyBool exist ++ ", override is " ++ pyBool cfg.override ++
       ", dryrun is " ++ pyBool cfg.dryrun),
     calls1)

/-- The provider's `list_object_versions(Bucket, Prefix=key, MaxKeys=3)`
result: the bucket's version entries whose Key starts with the requested
prefix, capped at `maxKeys`.  The code never compares the returned Key
fields with the target key. -/
def list_object_versions (env : Env) (bucket keyPfx : String) (maxKeys : Nat) :
    List VersionEntry :=
  ((env.versionList bucket).filter (fun v => strStartsWith v.key keyPfx)).take maxKeys

/-- Second half of `S3.rollback`: fetch the chosen version of the object and,
unless dry-run, re-upload its content as the latest version. -/
def rollback_apply (cfg : S3Config) (env : Env) (bucket key version_id : String) :
    Outcome × List Call :=
  match env.getObjectData bucket key version_id with
  | none =>
    (error_fatal ("No such object s3://" ++ bucket ++ "/" ++ key),
     [Call.getObjectCall bucket key version_id])
  | some _data =>
    if !cfg.dryrun then
      ((put_object env bucket key).1,
       Call.getObjectCall bucket key version_id :: (put_object env bucket key).2)
    else
      (Outcome.success, [Call.getObjectCall bucket key version_id])

/-- Embedding of `S3.rollback`: when no version id is given, head the object, list at most
3 versions with the key as prefix, fail fatally when fewer than 2 come back,
and otherwise take the VersionId of the entry at index 1; then fetch and
(unless dry-run) re-upload. -/
def rollback (cfg : S3Config) (env : Env) (region : String)
    (version_id : Option String) : Outcome × List Call :=
  let key := object_key cfg
  let bucket := (get_bucket cfg env region).1
  let calls0 := (get_bucket cfg env region).2
  match version_id with
  | some vid =>
    ((rollback_apply cfg env bucket key vid).1,
     calls0 ++ (rollback_apply cfg env bucket key vid).2)
  | none =>
    match env.headObject bucket key with
    | .clientError _ =>
      (error_fatal ("No such object s3://" ++ bucket ++ "/" ++ key),
       calls0 ++ [Call.headObjectCall bucket key])
    | .ok =>
      let versions := list_object_versions env bucket key 3
      let calls1 := calls0 ++ [Call.headObjectCall bucket key,
                               Call.listVersionsCall bucket key 3]
      match versions with
      | _v0 :: v1 :: _rest =>
        ((rollback_apply cfg env bucket key v1.versionId).1,
         calls1 ++ (rollback_apply cfg env bucket key v1.versionId).2)
      | _ =>
        (error_fatal ("Not enough versions found for object s3://" ++ bucket),
         calls1)

/-! ## The CLI driver (`util/upload-script.py`) -/

/-- The fixed key prefix set by the CLI driver: `key_path = "scripts"`. -/
def key_path_driver : String := "scripts"

/-- Construction of the `S3` instance by the driver, with the fixed
`key_path`. -/
def driver_config (bucket : Option String) (script : String)
    (dryrun override createifnobucket : Bool) (main_region : String) :
    S3Config :=
  { bucket := bucket, script := script, key_path := key_path_driver,
    dryrun := dryrun, override := override,
    createifnobucket := createifnobucket, main_region := main_region }

/-- One iteration of the driver's region loop: rollback when `--rollback`
was given, otherwise upload. -/
def process_region (cfg : S3Config) (env : Env) (roll : Bool)
    (version_id : Option String) (region : String) : Outcome × List Call :=
  if roll then rollback cfg env region version_id
  else upload_to_s3 cfg env region

/-- The driver's region loop over the resolved region set; per the spec's
failure semantics a fatal error ends only the current region, so each region
is processed independently. -/
def main_loop (cfg : S3Config) (env : Env) (roll : Bool)
    (version_id : Option String) (regions : List String) :
    List (String × (Outcome × List Call)) :=
  regions.map (fun r => (r, process_region cfg env roll version_id r))

/-- Did `upload_to_s3` perform the put-object call for this region? -/
def performs_put (cfg : S3Config) (env : Env) (region : String) : Bool :=
  (upload_to_s3 cfg env region).2.any Call.isPutObject

/-- Is the object present according to the head-object check the code makes
(`exist` in `upload_to_s3`)? -/
def object_exists (cfg : S3Config) (env : Env) (region : String) : Bool :=
  match env.headObject (resolved_bucket cfg region) (object_key cfg) with
  | .ok => true
  | .clientError _ => false

/-- The location constraints carried by the create-bucket calls of a trace. -/
def create_constraints (calls : List Call) : List (Option String) :=
  calls.filterMap fun c =>
    match c with
    | Call.createBucketCall _ loc => some loc
    | _ => none

/-- The basename of a path in the spec's sense (`<script_basename>`): the
part after the last `/`. -/
def pyBasename (s : String) : String := (pySplit s '/').getLastD s

/-! ## Concrete provider states and configurations used in the theorems -/

/-- Provider that answers every request positively. -/
def envAllOk : Env :=
  { headBucket := fun _ => .ok
    headObject := fun _ _ => .ok
    versionList := fun _ => []
    getObjectData := fun _ _ _ => some "data"
    putObjectResp := fun _ _ => .ok }

/-- Provider where the target object is absent (head-object answers 404). -/
def envAbsent : Env :=
  { envAllOk with headObject := fun _ _ => .clientError "404" }

/-- Provider where the bucket itself is absent (head-bucket answers 404) and
so is the object. -/
def envNoBucket : Env :=
  { envAbsent with headBucket := fun _ => .clientError "404" }

/-- Provider where head-object fails with AccessDenied (an error that is not
a not-found error). -/
def envDenied : Env :=
  { envAllOk with headObject := fun _ _ => .clientError "AccessDenied" }

/-- Provider for the two-region conflict scenario: the object exists in the
default bucket of us-east-1 and nowhere else. -/
def envConflict : Env :=
  { envAllOk with
    headObject := fun b _ =>
      if b == "us-east-1-aws-parallelcluster" then .ok else .clientError "404" }

/-- Provider whose bucket `b` holds one version of `scripts/foo.sh` and one
version of the distinct object `scripts/foo.sh.bak`. -/
def envBak : Env :=
  { envAllOk with
    versionList := fun b =>
      if b == "b" then
        [⟨"scripts/foo.sh", "v-current", "2024-01-02"⟩,
         ⟨"scripts/foo.sh.bak", "v-bak", "2024-01-01"⟩]
      else [] }

/-- Base configuration: upload `foo.sh` to the explicit bucket `b`. -/
def cfgBase : S3Config :=
  { bucket := some "b", script := "foo.sh", key_path := "scripts",
    dryrun := false, override := false, createifnobucket := false,
    main_region := "us-east-1" }

/-- Base configuration with the dry-run flag set. -/
def cfgDry : S3Config := { cfgBase with dryrun := true }

/-- Dry-run together with create-bucket-if-missing. -/
def cfgDryCreate : S3Config := { cfgDry with createifnobucket := true }

/-- Two-region conflict scenario configuration: derived bucket names,
override disabled, no dry-run. -/
def cfgConflict : S3Config := { cfgBase with bucket := none }

/-- Rollback scenario configuration (dry-run, so only reads happen after the
version is chosen). -/
def cfgRoll : S3Config := { cfgBase with dryrun := true }

/-- Provider whose bucket `b` holds four versions of `scripts/foo.sh` (so the
listing is capped at 3 and the second entry is the rollback target). -/
def envThree : Env :=
  { envAllOk with
    versionList := fun b =>
      if b == "b" then
        [⟨"scripts/foo.sh", "v3", "d3"⟩, ⟨"scripts/foo.sh", "v2", "d2"⟩,
         ⟨"scripts/foo.sh", "v1", "d1"⟩, ⟨"scripts/foo.sh", "v0", "d0"⟩]
      else []
  }

/-! ## Helper lemmas -/

theorem get_bucket_fst (cfg : S3Config) (env : Env) (region : String) :
    (get_bucket cfg env region).1 = resolved_bucket cfg region := by
  simp only [get_bucket]
  split <;> rfl

theorem create_bucket_no_put (m b r : String) :
    (create_bucket m b r).any Call.isPutObject = false := by
  unfold create_bucket
  split <;> rfl

theorem create_bucket_no_listVersions (m b r : String) :
    (create_bucket m b r).any Call.isListVersions = false := by
  unfold create_bucket
  split <;> rfl

theorem get_bucket_no_put (cfg : S3Config) (env : Env) (region : String) :
    (get_bucket cfg env region).2.any Call.isPutObject = false := by
  simp only [get_bucket]
  split
  · simp [Call.isPutObject, create_bucket_no_put]
  · rfl

theorem get_bucket_no_listVersions (cfg : S3Config) (env : Env) (region : String) :
    (get_bucket cfg env region).2.any Call.isListVersions = false := by
  simp only [get_bucket]
  split
  · simp [Call.isListVersions, create_bucket_no_listVersions]
  · rfl

theorem get_bucket_no_mutating (cfg : S3Config) (env : Env) (region : String)
    (h : cfg.createifnobucket = false) :
    (get_bucket cfg env region).2.any Call.isMutating = false := by
  simp only [get_bucket]
  split
  · simp_all
  · rfl

theorem put_object_snd (env : Env) (b k : String) :
    (put_object env b k).2 = [Call.putObjectCall b k] := by
  unfold put_object
  rcases h : env.putObjectResp b k with _ | code
  · rfl
  · simp only [h]
    split <;> rfl

theorem performs_put_eq (cfg : S3Config) (env : Env) (region : String) :
    performs_put cfg env region =
      ((object_exists cfg env region && cfg.override && !cfg.dryrun) ||
       (!object_exists cfg env region && !cfg.dryrun)) := by
  unfold performs_put upload_to_s3 object_exists
  rw [get_bucket_fst]
  rcases h : env.headObject (resolved_bucket cfg region) (object_key cfg) with _ | code <;>
    cases hd : cfg.dryrun <;> cases ho : cfg.override <;>
      simp [h, hd, ho, List.any_append, get_bucket_no_put, put_object_snd,
        Call.isPutObject]

theorem upload_skip_fatal (cfg : S3Config) (env : Env) (region : String)
    (h : ((object_exists cfg env region && cfg.override && !cfg.dryrun) ||
          (!object_exists cfg env region && !cfg.dryrun)) = false) :
    (upload_to_s3 cfg env region).1.isFatal = true := by
  unfold upload_to_s3
  rw [get_bucket_fst]
  unfold object_exists at h
  rcases hh : env.headObject (resolved_bucket cfg region) (object_key cfg) with _ | code <;>
    cases hd : cfg.dryrun <;> cases ho : cfg.override <;>
      simp_all [error_fatal, Outcome.isFatal]

theorem any_false_of_mem {α : Type} {l : List α} {p : α → Bool} {c : α}
    (hl : l.any p = false) (hc : c ∈ l) : p c = false := by
  by_contra hne
  have ht : l.any p = true := List.any_eq_true.mpr ⟨c, hc, by simpa using hne⟩
  rw [ht] at hl
  exact Bool.noConfusion hl

theorem rollback_apply_dryrun_no_put (cfg : S3Config) (env : Env) (b k v : String)
    (h : cfg.dryrun = true) :
    (rollback_apply cfg env b k v).2.any Call.isPutObject = false := by
  unfold rollback_apply
  rcases hg : env.getObjectData b k v with _ | d <;> simp [hg, h, Call.isPutObject]

theorem rollback_apply_dryrun_no_mutating (cfg : S3Config) (env : Env) (b k v : String)
    (h : cfg.dryrun = true) :
    (rollback_apply cfg env b k v).2.any Call.isMutating = false := by
  unfold rollback_apply
  rcases hg : env.getObjectData b k v with _ | d <;> simp [hg, h, Call.isMutating]

theorem rollback_apply_no_listVersions (cfg : S3Config) (env : Env) (b k v : String) :
    (rollback_apply cfg env b k v).2.any Call.isListVersions = false := by
  unfold rollback_apply
  rcases hg : env.getObjectData b k v with _ | d
  · simp [hg, Call.isListVersions]
  · simp only [hg]
    split <;> simp [Call.isListVersions, put_object_snd]

theorem getObject_mem_rollback_apply (cfg : S3Config) (env : Env) (b k v : String) :
    Call.getObjectCall b k v ∈ (rollback_apply cfg env b k v).2 := by
  unfold rollback_apply
  rcases hg : env.getObjectData b k v with _ | d
  · simp [hg]
  · simp only [hg]
    split <;> simp

theorem rollback_dryrun_no_put (cfg : S3Config) (env : Env) (region : String)
    (vid : Option String) (h : cfg.dryrun = true) :
    (rollback cfg env region vid).2.any Call.isPutObject = false := by
  cases vid with
  | some v =>
    simp only [rollback]
    simp [List.any_append, get_bucket_no_put, rollback_apply_dryrun_no_put cfg env _ _ _ h]
  | none =>
    simp only [rollback]
    rcases hh : env.headObject (get_bucket cfg env region).1 (object_key cfg) with _ | code <;>
      simp only [hh]
    · rcases hv : list_object_versions env (get_bucket cfg env region).1 (object_key cfg) 3
        with _ | ⟨v0, vtl⟩
      · simp [List.any_append, get_bucket_no_put, Call.isPutObject]
      · rcases vtl with _ | ⟨v1, rest⟩ <;>
          simp [List.any_append, get_bucket_no_put, Call.isPutObject,
            rollback_apply_dryrun_no_put cfg env _ _ _ h]
    · simp [List.any_append, get_bucket_no_put, Call.isPutObject]

theorem rollback_dryrun_no_mutating (cfg : S3Config) (env : Env) (region : String)
    (vid : Option String) (h : cfg.dryrun = true) (hc : cfg.createifnobucket = false) :
    (rollback cfg env region vid).2.any Call.isMutating = false := by
  cases vid with
  | some v =>
    simp only [rollback]
    simp [List.any_append, get_bucket_no_mutating cfg env region hc,
      rollback_apply_dryrun_no_mutating cfg env _ _ _ h]
  | none =>
    simp only [rollback]
    rcases hh : env.headObject (get_bucket cfg env region).1 (object_key cfg) with _ | code <;>
      simp only [hh]
    · rcases hv : list_object_versions env (get_bucket cfg env region).1 (object_key cfg) 3
        with _ | ⟨v0, vtl⟩
      · simp [List.any_append, get_bucket_no_mutating cfg env region hc, Call.isMutating]
      · rcases vtl with _ | ⟨v1, rest⟩ <;>
          simp [List.any_append, get_bucket_no_mutating cfg env region hc, Call.isMutating,
            rollback_apply_dryrun_no_mutating cfg env _ _ _ h]
    · simp [List.any_append, get_bucket_no_mutating cfg env region hc, Call.isMutating]

theorem upload_dryrun_no_mutating (cfg : S3Config) (env : Env) (region : String)
    (h : cfg.dryrun = true) (hc : cfg.createifnobucket = false) :
    (upload_to_s3 cfg env region).2.any Call.isMutating = false := by
  unfold upload_to_s3
  rw [get_bucket_fst]
  rcases hh : env.headObject (resolved_bucket cfg region) (object_key cfg) with _ | code <;>
    simp [hh, h, List.any_append,
      get_bucket_no_mutating cfg env region hc, Call.isMutating]

theorem only_listVersions_call {c : Call} (pre post : List Call)
    (hpre : pre.any Call.isListVersions = false)
    (hpost : post.any Call.isListVersions = false)
    (b k b2 k2 : String) (n : Nat)
    (hc : c ∈ (pre ++ [Call.headObjectCall b k, Call.listVersionsCall b2 k2 n]) ++ post)
    (hlv : c.isListVersions = true) :
    c = Call.listVersionsCall b2 k2 n := by
  rcases List.mem_append.mp hc with h1 | h2
  · rcases List.mem_append.mp h1 with h3 | h4
    · have hf := any_false_of_mem hpre h3
      rw [hlv] at hf
      exact absurd hf (by simp)
    · simp only [List.mem_cons, List.not_mem_nil, or_false] at h4
      rcases h4 with h5 | h5
      · rw [h5] at hlv
        simp [Call.isListVersions] at hlv
      · exact h5
  · have hf := any_false_of_mem hpost h2
    rw [hlv] at hf
    exact absurd hf (by simp)

theorem filter_not_contains_toFinset (l uns : List String) :
    (l.filter (fun r => !uns.contains r)).toFinset = l.toFinset \ uns.toFinset := by
  ext a
  simp [List.mem_filter]

/-! ## Claims -/

/-- C1 (amended): `upload_to_s3` performs the put-object call iff dry-run is
disabled and (the object is absent, or it is present with override enabled);
whenever that condition fails, no put happens and a fatal "Not uploading"
error is reported for that region.  The claim's stated condition — upload
whenever the object is absent, regardless of dry-run — is refuted by
`c1_upload_condition_cex`. -/
theorem c1_upload_condition (cfg : S3Config) (env : Env) (region : String) :
    performs_put cfg env region =
      ((object_exists cfg env region && cfg.override && !cfg.dryrun) ||
       (!object_exists cfg env region && !cfg.dryrun)) ∧
    (((object_exists cfg env region && cfg.override && !cfg.dryrun) ||
       (!object_exists cfg env region && !cfg.dryrun)) = false →
      (upload_to_s3 cfg env region).1.isFatal = true) :=
  ⟨performs_put_eq cfg env region, upload_skip_fatal cfg env region⟩

/-- Witness for C1 at a concrete input: explicit bucket, absent object, no
dry-run. -/
theorem c1_upload_condition_witness :
    performs_put cfgBase envAbsent "us-east-1" =
      ((object_exists cfgBase envAbsent "us-east-1" && cfgBase.override && !cfgBase.dryrun) ||
       (!object_exists cfgBase envAbsent "us-east-1" && !cfgBase.dryrun)) ∧
    (((object_exists cfgBase envAbsent "us-east-1" && cfgBase.override && !cfgBase.dryrun) ||
       (!object_exists cfgBase envAbsent "us-east-1" && !cfgBase.dryrun)) = false →
      (upload_to_s3 cfgBase envAbsent "us-east-1").1.isFatal = true) :=
  c1_upload_condition cfgBase envAbsent "us-east-1"

/-- Counterexample to C1 as stated: with dry-run set and the object absent,
the claim's condition (object does not exist) holds, yet the code performs no
put-object call. -/
theorem c1_upload_condition_cex :
    ¬ (performs_put cfgDry envAbsent "us-east-1" = true ↔
        (object_exists cfgDry envAbsent "us-east-1" = false ∨
         (object_exists cfgDry envAbsent "us-east-1" = true ∧
          cfgDry.override = true ∧ cfgDry.dryrun = false))) := by
  decide

/-- C2 (amended): with the dry-run flag set, no put-object call is ever made,
in upload and rollback mode alike; and when create-bucket-if-missing is
disabled, no mutating provider call at all is made.  Dry-run does NOT
suppress create-bucket when create-bucket-if-missing is enabled:
`c2_dryrun_mutations_cex`. -/
theorem c2_dryrun_mutations (cfg : S3Config) (env : Env) (roll : Bool)
    (vid : Option String) (region : String) (h : cfg.dryrun = true) :
    (process_region cfg env roll vid region).2.any Call.isPutObject = false ∧
    (cfg.createifnobucket = false →
      (process_region cfg env roll vid region).2.any Call.isMutating = false) := by
  constructor
  · unfold process_region
    split
    · exact rollback_dryrun_no_put cfg env region vid h
    · show performs_put cfg env region = false
      rw [performs_put_eq]
      simp [h]
  · intro hc
    unfold process_region
    split
    · exact rollback_dryrun_no_mutating cfg env region vid h hc
    · exact upload_dryrun_no_mutating cfg env region h hc

/-- Witness for C2 at a concrete dry-run input. -/
theorem c2_dryrun_mutations_witness :
    (process_region cfgDry envAbsent false none "us-east-1").2.any Call.isPutObject = false ∧
    (cfgDry.createifnobucket = false →
      (process_region cfgDry envAbsent false none "us-east-1").2.any Call.isMutating = false) :=
  c2_dryrun_mutations cfgDry envAbsent false none "us-east-1" rfl

/-- Counterexample to C2 as stated: dry-run with create-bucket-if-missing on
a missing bucket still performs the mutating create-bucket call. -/
theorem c2_dryrun_mutations_cex :
    cfgDryCreate.dryrun = true ∧
    (upload_to_s3 cfgDryCreate envNoBucket "eu-west-1").2.any Call.isCreateBucket = true := by
  decide

/-- C3 (amended): region resolution subtracts the unsupported set in BOTH
cases — the resolved set is (all provider regions when the selector is "all",
else the comma-split selector) minus the unsupported set.  The claim's "no
subtraction for an explicit list" is refuted by `c3_region_resolution_cex`. -/
theorem c3_region_resolution (region : String) (allAwsRegions uns : List String) :
    (resolve_regions region allAwsRegions uns).toFinset =
      (if region == "all" then allAwsRegions else pySplit region ',').toFinset \
        uns.toFinset :=
  filter_not_contains_toFinset (if region == "all" then allAwsRegions else pySplit region ',') uns

/-- Counterexample to C3 as stated: for the explicit selector
"us-east-1,us-west-2" with unsupported set {us-west-2}, the resolved set is
not the literal list — us-west-2 has been subtracted. -/
theorem c3_region_resolution_cex :
    "us-west-2" ∈ pySplit "us-east-1,us-west-2" ',' ∧
    "us-west-2" ∉ resolve_regions "us-east-1,us-west-2" [] ["us-west-2"] := by
  decide

/-- C4 (amended): the create-bucket call omits the location constraint iff
`main_region` (the partition's home region) is us-east-1 — irrespective of
the region the bucket is created in; otherwise the constraint equals the
target region, also when that target is the home region itself.  The claim's
per-target-region rule is refuted by `c4_constraint_rule_cex`. -/
theorem c4_constraint_rule (main_region bucket region : String) :
    create_constraints (create_bucket main_region bucket region) =
      [if main_region == "us-east-1" then none else some region] := by
  unfold create_bucket
  split <;> simp_all [create_constraints]

/-- Counterexample to C4 as stated: creating a bucket in the govcloud home
region us-gov-west-1 includes a location constraint, though the claim says
creation in the home region omits it. -/
theorem c4_constraint_rule_cex :
    Call.createBucketCall "b" (some "us-gov-west-1") ∈
      create_bucket "us-gov-west-1" "b" "us-gov-west-1" ∧
    Call.createBucketCall "b" none ∉
      create_bucket "us-gov-west-1" "b" "us-gov-west-1" := by
  decide

/-- C5: rollback without an explicit version id lists versions with MaxKeys 3
(every list-versions call in the trace carries 3), fails fatally when fewer
than 2 versions come back, and otherwise targets the VersionId of the entry
at index 1 (the fetched version is that entry's). -/
theorem c5_rollback_selection (cfg : S3Config) (env : Env) (region : String)
    (hh : env.headObject (resolved_bucket cfg region) (object_key cfg) = ClientResp.ok) :
    (∀ c ∈ (rollback cfg env region none).2, c.isListVersions = true →
        c = Call.listVersionsCall (resolved_bucket cfg region) (object_key cfg) 3) ∧
    ((list_object_versions env (resolved_bucket cfg region) (object_key cfg) 3).length < 2 →
        (rollback cfg env region none).1.isFatal = true) ∧
    (∀ v0 v1 rest,
        list_object_versions env (resolved_bucket cfg region) (object_key cfg) 3 =
            v0 :: v1 :: rest →
        Call.getObjectCall (resolved_bucket cfg region) (object_key cfg) v1.versionId ∈
          (rollback cfg env region none).2) := by
  refine ⟨?_, ?_, ?_⟩
  · intro c hc hlv
    revert hc
    simp only [rollback, get_bucket_fst, hh]
    rcases hv : list_object_versions env (resolved_bucket cfg region) (object_key cfg) 3
      with _ | ⟨v0, vtl⟩
    · intro hc
      rw [← List.append_nil ((get_bucket cfg env region).2 ++ [_, _])] at hc
      exact only_listVersions_call _ [] (get_bucket_no_listVersions cfg env region) rfl
        _ _ _ _ _ hc hlv
    · rcases vtl with _ | ⟨v1, rest⟩
      · intro hc
        rw [← List.append_nil ((get_bucket cfg env region).2 ++ [_, _])] at hc
        exact only_listVersions_call _ [] (get_bucket_no_listVersions cfg env region) rfl
          _ _ _ _ _ hc hlv
      · intro hc
        exact only_listVersions_call _ _ (get_bucket_no_listVersions cfg env region)
          (rollback_apply_no_listVersions cfg env _ _ _) _ _ _ _ _ hc hlv
  · intro hlen
    simp only [rollback, get_bucket_fst, hh]
    rcases hv : list_object_versions env (resolved_bucket cfg region) (object_key cfg) 3
      with _ | ⟨v0, vtl⟩
    · simp [error_fatal, Outcome.isFatal]
    · rcases vtl with _ | ⟨v1, rest⟩
      · simp [error_fatal, Outcome.isFatal]
      · rw [hv] at hlen
        simp at hlen
        omega
  · intro v0 v1 rest hv
    simp only [rollback, get_bucket_fst, hh, hv]
    exact List.mem_append.mpr (Or.inr (getObject_mem_rollback_apply cfg env _ _ _))

/-- Witness for C5: with four stored versions of the object, the rollback
target is the second of the (at most 3) listed ones. -/
theorem c5_rollback_selection_witness :
    Call.getObjectCall (resolved_bucket cfgRoll "us-east-1") (object_key cfgRoll)
        (VersionEntry.versionId ⟨"scripts/foo.sh", "v2", "d2"⟩) ∈
      (rollback cfgRoll envThree "us-east-1" none).2 :=
  (c5_rollback_selection cfgRoll envThree "us-east-1" rfl).2.2
    ⟨"scripts/foo.sh", "v3", "d3"⟩ ⟨"scripts/foo.sh", "v2", "d2"⟩
    [⟨"scripts/foo.sh", "v1", "d1"⟩] (by decide)

/-- C6 (spec-modelled): the driver processes every region of the resolved set
independently — each region's result appears in the loop output regardless of
the other regions — and in the spec's two-region scenario the region with an
existing object and override disabled reports a fatal conflict without
uploading, while the other region still receives the upload. -/
theorem c6_conflict_nonfatal (cfg : S3Config) (env : Env) (roll : Bool)
    (vid : Option String) (regions : List String) (r : String)
    (h : r ∈ regions) :
    (r, process_region cfg env roll vid r) ∈ main_loop cfg env roll vid regions ∧
    ((upload_to_s3 cfgConflict envConflict "us-east-1").1.isFatal = true ∧
     performs_put cfgConflict envConflict "us-east-1" = false ∧
     performs_put cfgConflict envConflict "us-west-2" = true) :=
  ⟨List.mem_map.mpr ⟨r, h, rfl⟩, by decide⟩

/-- Witness for C6 at the spec's concrete two-region scenario. -/
theorem c6_conflict_nonfatal_witness :
    ("us-west-2", process_region cfgConflict envConflict false none "us-west-2") ∈
      main_loop cfgConflict envConflict false none ["us-east-1", "us-west-2"] ∧
    ((upload_to_s3 cfgConflict envConflict "us-east-1").1.isFatal = true ∧
     performs_put cfgConflict envConflict "us-east-1" = false ∧
     performs_put cfgConflict envConflict "us-west-2" = true) :=
  c6_conflict_nonfatal cfgConflict envConflict false none ["us-east-1", "us-west-2"]
    "us-west-2" (by decide)

/-- C7 (amended): the object key is the driver's fixed prefix "scripts"
followed by the script argument exactly as given — directory components are
kept, no basename is taken (the claim's basename rule is refuted by
`c7_key_layout_cex`). -/
theorem c7_key_layout (bucket : Option String) (script : String)
    (dryrun override createifnobucket : Bool) (main_region : String) :
    object_key (driver_config bucket script dryrun override createifnobucket main_region) =
      "scripts/" ++ script := by
  apply String.ext
  simp only [object_key, driver_config, key_path_driver, String.data_append]
  rfl

/-- Counterexample to C7 as stated: a script argument with directory
components produces the key "scripts/path/to/foo.sh", not
"scripts/" ++ basename. -/
theorem c7_key_layout_cex :
    object_key (driver_config (some "b") "path/to/foo.sh" false false false "us-east-1") ≠
      key_path_driver ++ "/" ++ pyBasename "path/to/foo.sh" := by
  decide

/-- C8: the partition → home-region lookup is exactly commercial→us-east-1,
govcloud→us-gov-west-1, china→cn-north-1, and any other partition value fails
with the fatal "Unsupported Region" configuration error. -/
theorem c8_partition_map (p : String)
    (h : p ≠ "commercial" ∧ p ≠ "govcloud" ∧ p ≠ "china") :
    get_main_region "commercial" = Except.ok "us-east-1" ∧
    get_main_region "govcloud" = Except.ok "us-gov-west-1" ∧
    get_main_region "china" = Except.ok "cn-north-1" ∧
    get_main_region p = Except.error "Unsupported Region" := by
  refine ⟨rfl, rfl, rfl, ?_⟩
  unfold get_main_region
  rcases h with ⟨h1, h2, h3⟩
  simp [h1, h2, h3]

/-- Witness for C8 at the unknown partition "aws-iso". -/
theorem c8_partition_map_witness :
    get_main_region "commercial" = Except.ok "us-east-1" ∧
    get_main_region "govcloud" = Except.ok "us-gov-west-1" ∧
    get_main_region "china" = Except.ok "cn-north-1" ∧
    get_main_region "aws-iso" = Except.error "Unsupported Region" :=
  c8_partition_map "aws-iso" (by decide)

/-- C9: any client error from the head-object existence check — not only a
not-found error, e.g. AccessDenied — makes `upload_to_s3` treat the object as
absent, so without dry-run it proceeds to the put-object call instead of
surfacing the provider error. -/
theorem c9_head_error_means_absent (cfg : S3Config) (env : Env)
    (region code : String)
    (h : env.headObject (resolved_bucket cfg region) (object_key cfg) =
          ClientResp.clientError code)
    (hd : cfg.dryrun = false) :
    object_exists cfg env region = false ∧ performs_put cfg env region = true := by
  have hex : object_exists cfg env region = false := by
    unfold object_exists
    rw [h]
  refine ⟨hex, ?_⟩
  rw [performs_put_eq, hex]
  simp [hd]

/-- Witness for C9 with an AccessDenied response. -/
theorem c9_head_error_means_absent_witness :
    object_exists cfgBase envDenied "us-east-1" = false ∧
    performs_put cfgBase envDenied "us-east-1" = true :=
  c9_head_error_means_absent cfgBase envDenied "us-east-1" "AccessDenied" rfl rfl

/-- C10: the rollback version listing filters only by key prefix and the Key
of the chosen entry is never compared with the target: with an object
`scripts/foo.sh.bak` holding the bucket's second listed version, the entry at
index 1 belongs to that other object, and rollback fetches its VersionId for
key `scripts/foo.sh`. -/
theorem c10_version_from_other_object :
    (list_object_versions envBak "b" (object_key cfgRoll) 3)[1]? =
        some ⟨"scripts/foo.sh.bak", "v-bak", "2024-01-01"⟩ ∧
    "scripts/foo.sh.bak" ≠ object_key cfgRoll ∧
    Call.getObjectCall "b" (object_key cfgRoll) "v-bak" ∈
      (rollback cfgRoll envBak "us-east-1" none).2 := by
  decide

end S3Factory
